import Mathlib

/-!
Verification of the parallely process supervisor: a shallow embedding of its
task-executor, message-bus, shutdown-handler, event-propagation, console-scroll
and main-loop logic, with theorems checking the specification's claims.
-/

namespace Parallely

/-- Exit status of a child process, kept abstract up to its rendered form
(Rust `std::process::ExitStatus` is platform-specific; the code only ever
displays it). -/
structure ExitStatusM where
  display : String
deriving DecidableEq

/-- `TaskStatus` from src/task_executor.rs lines 13-29. -/
inductive TaskStatus where
  | ready (command : String)
  | executing (command : String) (pid : Option Nat)
  | killed (command : String) (pid : Option Nat)
  | exited (command : String) (pid : Option Nat) (status : ExitStatusM)
deriving DecidableEq

/-- `KillError` from src/task_executor/child_ext.rs lines 4-27. -/
inductive KillError where
  | invalidPid
  | noPermission
  | noWait
  | win32Error (code : Nat)
deriving DecidableEq

/-- `ChildSignal` from src/task_executor/child_ext.rs lines 29-34. -/
inductive ChildSignal where
  | interrupt
  | quit
  | terminate
deriving DecidableEq

instance {ε α : Type} [DecidableEq ε] [DecidableEq α] : DecidableEq (Except ε α) := fun a b =>
  match a, b with
  | .ok x, .ok y =>
    if h : x = y then isTrue (by rw [h]) else isFalse (fun hh => by cases hh; exact h rfl)
  | .ok _, .error _ => isFalse (fun hh => by cases hh)
  | .error _, .ok _ => isFalse (fun hh => by cases hh)
  | .error x, .error y =>
    if h : x = y then isTrue (by rw [h]) else isFalse (fun hh => by cases hh; exact h rfl)

/-- `From<ChildSignal> for libc::c_int` (child_ext.rs lines 36-45): SIGINT = 2,
SIGQUIT = 3, SIGTERM = 15. -/
def childSignalToUnix : ChildSignal → Int
  | .interrupt => 2
  | .quit => 3
  | .terminate => 15

/-- `libc::EPERM` (the value the unix `send_signal` compares `libc::kill`'s
return value against). -/
def EPERM : Int := 1

/-- `libc::ESRCH` (the value the unix `send_signal` compares `libc::kill`'s
return value against). -/
def ESRCH : Int := 3

/-- Unix `ChildExt::send_signal` for `tokio::process::Child`
(child_ext.rs lines 78-92), embedded over an OS oracle.

`pid` is `self.id()`; `osKillRet` is the value the OS call
`libc::kill(pid, signal)` returns at this moment.  The embedding returns the
function's result together with a flag telling whether the OS-level dispatch
(`libc::kill`) was performed at all.

The source matches the *return value* of `libc::kill` against the errno
constants `EPERM`/`ESRCH`; the embedding reproduces that match verbatim. -/
def sendSignalUnix (pid : Option Nat) (osKillRet : Int) : Except KillError Unit × Bool :=
  match pid with
  | none => (.error .invalidPid, false)
  | some 0 => (.error .invalidPid, false)
  | some (_ + 1) =>
      (if osKillRet = EPERM then .error .noPermission
       else if osKillRet = ESRCH then .error .noWait
       else .ok (), true)

/-- Outcome of an actual POSIX `kill(2)` call on the OS side. -/
inductive KillOutcome where
  | success
  | eperm
  | esrch
deriving DecidableEq

/-- POSIX semantics of `kill(2)`'s return value: `0` on success and `-1` on
every failure (the cause goes to `errno`, which the source never reads). -/
def posixKillRet : KillOutcome → Int
  | .success => 0
  | .eperm => -1
  | .esrch => -1

/-- The claimed behaviour of `send_signal` for a present, nonzero pid, written
from the spec's words (signal-delivery failures map `EPERM` to `NoPermission`
and `ESRCH` to `NoWait`, success to `Ok`); compared against `sendSignalUnix`. -/
def specSendSignalPosix (pid : Option Nat) (outcome : KillOutcome) : Except KillError Unit :=
  match pid with
  | none => .error .invalidPid
  | some 0 => .error .invalidPid
  | some (_ + 1) =>
      match outcome with
      | .success => .ok ()
      | .eperm => .error .noPermission
      | .esrch => .error .noWait

/-- OS oracle for the windows branch of `send_signal`
(child_ext.rs lines 94-135): result of `GenerateConsoleCtrlEvent`, the
current `GetLastError` value, whether `OpenProcess` returned a null handle,
and the result of `TerminateProcess`. -/
structure WinOracle where
  ctrlEventRet : Int
  lastError : Nat
  openHandleNull : Bool
  terminateRet : Int
deriving DecidableEq

/-- Windows `ChildExt::send_signal` (child_ext.rs lines 94-135), embedded over
a `WinOracle`; the second component tells whether any OS-level call was made. -/
def sendSignalWin (pid : Option Nat) (sig : ChildSignal) (os : WinOracle) :
    Except KillError Unit × Bool :=
  match pid with
  | none => (.error .invalidPid, false)
  | some 0 => (.error .invalidPid, false)
  | some (_ + 1) =>
      match sig with
      | .interrupt =>
          (if os.ctrlEventRet = 0 then .ok ()
           else .error (.win32Error os.lastError), true)
      | .quit | .terminate =>
          (if os.openHandleNull then .error (.win32Error os.lastError)
           else if os.terminateRet = 0 then .ok ()
           else .error (.win32Error os.lastError), true)

/-- Key codes of `crossterm::event::KeyCode`, restricted to the shape the
source inspects: character keys, with a tag for every non-character key. -/
inductive KeyCode where
  | char (c : Char)
  | nonChar (tag : Nat)
deriving DecidableEq

/-- `crossterm::event::KeyModifiers` (a bitflags set; the source compares it
for equality against `KeyModifiers::CONTROL`). -/
structure KeyModifiers where
  ctrl : Bool
  alt : Bool
  shift : Bool
deriving DecidableEq

/-- `KeyModifiers::CONTROL`: exactly the control bit. -/
def controlMods : KeyModifiers := ⟨true, false, false⟩

/-- `KeyModifiers::NONE`: no modifier bits. -/
def noMods : KeyModifiers := ⟨false, false, false⟩

/-- `crossterm::event::KeyEventKind`. -/
inductive KeyEventKind where
  | press
  | repeatKey
  | release
deriving DecidableEq

/-- `crossterm::event::KeyEvent`, restricted to the fields the source reads. -/
structure KeyEvent where
  code : KeyCode
  modifiers : KeyModifiers
  kind : KeyEventKind
deriving DecidableEq

/-- `crossterm::event::MouseEventKind`, restricted to the variants the source
distinguishes (scroll up, scroll down, everything else tagged). -/
inductive MouseKind where
  | scrollUp
  | scrollDown
  | otherMouse (tag : Nat)
deriving DecidableEq

/-- `crossterm::event::MouseEvent`, restricted to the fields the source reads
(`kind`, `column`, `row`). -/
structure MouseEvent where
  kind : MouseKind
  column : Nat
  row : Nat
deriving DecidableEq

/-- `crossterm::event::Event`, restricted to the variants the source
dispatches on. -/
inductive Event where
  | key (k : KeyEvent)
  | mouse (m : MouseEvent)
  | resize (w h : Nat)
  | focusGained
  | focusLost
  | paste (s : String)
deriving DecidableEq

/-- `ParallelyEvent` from src/event.rs lines 4-8: a raw input event paired
with a mutable propagation flag. -/
structure ParallelyEvent where
  inner : Event
  propagate : Bool
deriving DecidableEq

/-- `ParallelyEvent::new` (event.rs lines 11-16): the flag starts `true`. -/
def ParallelyEvent.new (e : Event) : ParallelyEvent := ⟨e, true⟩

/-- `ParallelyEvent::stop_propagation` (event.rs lines 22-24). -/
def ParallelyEvent.stopPropagation (pe : ParallelyEvent) : ParallelyEvent :=
  { pe with propagate := false }

/-- The mutating operations `ParallelyEvent`'s public API offers a handler:
`stop_propagation` is the only one (`propagate()`, `as_ref` and `Deref` are
read-only). -/
inductive EventOp where
  | stopProp
deriving DecidableEq

/-- Apply one API operation to an event wrapper. -/
def applyOp (pe : ParallelyEvent) : EventOp → ParallelyEvent
  | .stopProp => pe.stopPropagation

/-- Apply a sequence of handler calls to one event wrapper. -/
def applyOps (pe : ParallelyEvent) (ops : List EventOp) : ParallelyEvent :=
  ops.foldl applyOp pe

/-- `ShutdownReason` from src/shutdown_handler.rs lines 72-80. -/
inductive ShutdownReason where
  | sigint
  | sigterm
  | sigquit
  | ctrlC
  | quit
  | endAll
deriving DecidableEq

/-- `From<ShutdownReason> for ChildSignal` (child_ext.rs lines 47-58). -/
def shutdownReasonToSignal : ShutdownReason → ChildSignal
  | .ctrlC => .interrupt
  | .quit => .quit
  | .sigint => .interrupt
  | .sigterm => .terminate
  | .sigquit => .quit
  | .endAll => .terminate

/-- `ShutdownHandler::handle_event` (shutdown_handler.rs lines 45-69):
returns the `Shutdown` reasons published on the message bus and the updated
event wrapper.  Match arms in source order: `(Char('q'), _)`,
`(Char('c'), CONTROL)`, `(Char('\x5c'), CONTROL)`, `_`; only `Press` kinds
enter the match. -/
def handleEventSH (ev : ParallelyEvent) : List ShutdownReason × ParallelyEvent :=
  match ev.inner with
  | .key k =>
      match k.kind with
      | .press =>
          if k.code = .char 'q' then ([.quit], ev.stopPropagation)
          else if k.code = .char 'c' ∧ k.modifiers = controlMods then
            ([.ctrlC], ev.stopPropagation)
          else if k.code = .char '\\' ∧ k.modifiers = controlMods then
            ([.sigquit], ev.stopPropagation)
          else ([], ev)
      | _ => ([], ev)
  | _ => ([], ev)

/-- `Message` from src/message.rs lines 16-22 (`Error` carries a report,
rendered here by its message text; `EventChunk` carries wrapped events). -/
inductive MessageM where
  | errorMsg (e : String)
  | shutdownMsg (r : ShutdownReason)
  | eventChunk (events : List ParallelyEvent)
  | update
deriving DecidableEq

/-- State of the unbounded mpsc channel behind `MessageSender`: whether the
consumer end has been dropped (closed), and the queue of accepted messages. -/
structure BusState where
  closed : Bool
  queue : List MessageM
deriving DecidableEq

/-- `UnboundedSender::send`: fails exactly when the receiver was dropped,
otherwise appends the message.  Returns the new state and a success flag. -/
def busSend (b : BusState) (m : MessageM) : BusState × Bool :=
  if b.closed then (b, false) else ({ b with queue := b.queue ++ [m] }, true)

/-- Outcome of one of `MessageSender`'s convenience operations: the message
was delivered, or the process aborted via `panic!`. -/
inductive SendOutcome where
  | delivered
  | panicked
deriving DecidableEq

/-- `MessageSender::send_error` (message.rs lines 59-66): on send failure the
process panics. -/
def sendErrorB (b : BusState) (e : String) : BusState × SendOutcome :=
  let (b1, ok) := busSend b (.errorMsg e)
  if ok then (b1, .delivered) else (b1, .panicked)

/-- `MessageSender::send_shutdown` (message.rs lines 68-72): on send failure
it reports the send error through `send_error`. -/
def sendShutdownB (b : BusState) (r : ShutdownReason) : BusState × SendOutcome :=
  let (b1, ok) := busSend b (.shutdownMsg r)
  if ok then (b1, .delivered) else sendErrorB b1 "SendError"

/-- `MessageSender::send_event_chunk` (message.rs lines 74-78). -/
def sendEventChunkB (b : BusState) (events : List ParallelyEvent) : BusState × SendOutcome :=
  let (b1, ok) := busSend b (.eventChunk events)
  if ok then (b1, .delivered) else sendErrorB b1 "SendError"

/-- `MessageSender::need_update` (message.rs lines 80-84). -/
def needUpdateB (b : BusState) : BusState × SendOutcome :=
  let (b1, ok) := busSend b .update
  if ok then (b1, .delivered) else sendErrorB b1 "SendError"

/-- `ratatui::layout::Rect` (fields used by the source). -/
structure Rect where
  x : Nat
  y : Nat
  width : Nat
  height : Nat
deriving DecidableEq

/-- `Rect::contains(position)`: the half-open box test ratatui performs. -/
def Rect.containsPos (r : Rect) (col row : Nat) : Bool :=
  r.x ≤ col && col < r.x + r.width && r.y ≤ row && row < r.y + r.height

/-- The scroll-relevant state of `ConsoleState` (console.rs lines 24-33):
its vertical scroll offset and the pending mouse event stored by
`ConsoleState::mouse_event`. -/
structure ConsoleStateM where
  scroll : Nat
  pending : Option MouseEvent
deriving DecidableEq

/-- `ConsoleState::mouse_event` (console.rs lines 102-104): stores the
broadcast event (or `None`). -/
def setMouseEvent (s : ConsoleStateM) (ev : Option MouseEvent) : ConsoleStateM :=
  { s with pending := ev }

/-- `ConsoleState::handle_mouse_event` (console.rs lines 106-122): takes the
pending event; if this pane's rect contains its coordinates, steps the given
scroll value (`saturating_sub`/`saturating_add` by one); otherwise leaves the
value unchanged.  Returns the new scroll value and the state after `take()`. -/
def handleMouseEvent (s : ConsoleStateM) (vscroll : Nat) (rect : Rect) :
    Nat × ConsoleStateM :=
  match s.pending with
  | some ev =>
      let s1 := { s with pending := none }
      if rect.containsPos ev.column ev.row then
        match ev.kind with
        | .scrollUp => (vscroll - 1, s1)
        | .scrollDown => (vscroll + 1, s1)
        | .otherMouse _ => (vscroll, s1)
      else (vscroll, s1)
  | none => (vscroll, s)

/-- The scroll update a render pass applies to one pane
(console.rs lines 224-227): `output_vertical_scroll =
min(handle_mouse_event(output_vertical_scroll, stdout_rect), stdout_scroll_max)`. -/
def renderScrollUpdate (s : ConsoleStateM) (rect : Rect) (scrollMax : Nat) :
    ConsoleStateM :=
  let (v, s1) := handleMouseEvent s s.scroll rect
  { s1 with scroll := min v scrollMax }

/-- The mouse branch of `App::handle_events` (app.rs lines 123-137): a scroll
event is stored into every console state (each pane gets its own copy); other
mouse kinds are ignored. -/
def dispatchMouse (states : List ConsoleStateM) (ev : MouseEvent) : List ConsoleStateM :=
  match ev.kind with
  | .scrollUp => states.map (fun s => setMouseEvent s (some ev))
  | .scrollDown => states.map (fun s => setMouseEvent s (some ev))
  | .otherMouse _ => states

/-- One render pass over all panes: each pane is clamped and stepped with its
own viewport rect and scroll maximum. -/
def renderPass (states : List ConsoleStateM) (geom : List (Rect × Nat)) :
    List ConsoleStateM :=
  List.zipWith (fun s (g : Rect × Nat) => renderScrollUpdate s g.1 g.2) states geom

/-- `ParallelyResult` from src/parallely.rs lines 21-25. -/
structure ParallelyResult where
  command : String
  exitStatus : ExitStatusM
deriving DecidableEq

/-- `ShutdownReason` from src/app.rs lines 227-236 (the variant set `App::run`
breaks its loop with; `End` carries every task's captured result, `Error`
carries a report rendered by its text). -/
inductive AppShutdownReason where
  | sigint
  | sigterm
  | sigquit
  | ctrlC
  | quit
  | endRun (results : List (Except String ParallelyResult))
  | errorReason (e : String)
deriving DecidableEq

/-- The fields of `App` (app.rs lines 24-30) that its loop dispatch reads or
writes: the configured exit mode, the console states, and (as explicit state)
the queue of messages the loop's own handlers push onto the shutdown channel. -/
structure AppStateM where
  exitOnComplete : Bool
  consoleStates : List ConsoleStateM
  shutdownQueue : List (Except String AppShutdownReason)
deriving DecidableEq

/-- `App::handle_events` (app.rs lines 106-153): key chords push `Shutdown`
results onto the shutdown channel; scroll events are broadcast to every
console state; resize and focus events clear every pane's pending event. -/
def appHandleEvents (st : AppStateM) (e : Event) : AppStateM :=
  match e with
  | .key k =>
      if k.kind = .press then
        if k.code = .char 'q' then
          { st with shutdownQueue := st.shutdownQueue ++ [.ok .quit] }
        else if k.code = .char 'c' ∧ k.modifiers = controlMods then
          { st with shutdownQueue := st.shutdownQueue ++ [.ok .ctrlC] }
        else if k.code = .char '\'' ∧ k.modifiers = controlMods then
          { st with shutdownQueue := st.shutdownQueue ++ [.ok .sigquit] }
        else st
      else st
  | .mouse m =>
      match m.kind with
      | .scrollUp => { st with consoleStates := dispatchMouse st.consoleStates m }
      | .scrollDown => { st with consoleStates := dispatchMouse st.consoleStates m }
      | .otherMouse _ => st
  | .resize _ _ =>
      { st with consoleStates := st.consoleStates.map (fun s => setMouseEvent s none) }
  | .focusGained =>
      { st with consoleStates := st.consoleStates.map (fun s => setMouseEvent s none) }
  | .focusLost =>
      { st with consoleStates := st.consoleStates.map (fun s => setMouseEvent s none) }
  | .paste _ => st

/-- The occurrence one iteration of `App::run`'s `select!` wakes up on
(app.rs lines 64-92). -/
inductive LoopEvent where
  | tick
  | tasksEnd (results : List (Except String ParallelyResult))
  | errorMsg (e : String)
  | shutdownRecv (r : Except String AppShutdownReason)
  | inputEvent (e : Event)
  | inputError (e : String)
deriving DecidableEq

/-- What one loop iteration decides: keep looping with an updated `App`, or
break out of the loop with the value `App::run` returns. -/
inductive StepOutcome where
  | continueLoop (st : AppStateM)
  | exitLoop (r : Except String AppShutdownReason)
deriving DecidableEq

/-- One `select!` dispatch of `App::run`'s loop (app.rs lines 62-93):
a tick or an error message continues; task completion breaks with
`End(results)` only when `exit_on_complete` is NOT set (the source tests
`!self.exit_on_complete`); a received shutdown result breaks with it; an
input event is routed through `handle_events`; an event-stream error breaks
with `Error`. -/
def appStep (st : AppStateM) (ev : LoopEvent) : StepOutcome :=
  match ev with
  | .tick => .continueLoop st
  | .tasksEnd results =>
      if !st.exitOnComplete then .exitLoop (.ok (.endRun results))
      else .continueLoop st
  | .errorMsg _ => .continueLoop st
  | .shutdownRecv r => .exitLoop r
  | .inputEvent e => .continueLoop (appHandleEvents st e)
  | .inputError e => .exitLoop (.ok (.errorReason e))

/-- OS-side oracle for one spawned child process handle, fixing what each OS
call observes during one escalation: `child.id()` at signal time, the return
value `libc::kill` would produce, and the results of `try_wait`, `wait` and
`kill` (`none` from `try_wait` means still running). -/
structure ChildM where
  idNow : Option Nat
  osKillRet : Int
  tryWaitRes : Except String (Option ExitStatusM)
  waitRes : Except String ExitStatusM
  killRes : Except String Unit
deriving DecidableEq

/-- `TaskExecutor`'s fields relevant to status and escalation
(task_executor.rs lines 97-104): the raw command, the child handle (with its
oracle) once spawned, the pid recorded at spawn, and whether the forwarder
shutdown sender is still present (`Option<oneshot::Sender<()>>`). -/
structure TaskExecutorM where
  rawCommand : String
  child : Option ChildM
  pid : Option Nat
  shutdownSenderPresent : Bool
deriving DecidableEq

/-- Externally visible actions an escalation performs, in order. -/
inductive TEAction where
  | signalAttempted
  | killedChild
  | waitedChild
  | sentForwarderStop
deriving DecidableEq

/-- `TaskExecutor::try_wait` (task_executor.rs lines 182-200). -/
def teTryWait (te : TaskExecutorM) : Except String TaskStatus :=
  match te.child with
  | some c =>
      c.tryWaitRes.map (fun o =>
        match o with
        | some st => .exited te.rawCommand te.pid st
        | none => .executing te.rawCommand te.pid)
  | none => .ok (.ready te.rawCommand)

/-- `TaskExecutor::wait` (task_executor.rs lines 202-213): with a child
present it returns `Exited` with the status `child.wait()` reports (there is
no path to `Killed` here); also records the wait action. -/
def teWait (te : TaskExecutorM) : Except String TaskStatus × List TEAction :=
  match te.child with
  | some c => (c.waitRes.map (fun st => .exited te.rawCommand te.pid st), [.waitedChild])
  | none => (.ok (.ready te.rawCommand), [])

/-- `TaskExecutor::kill` (task_executor.rs lines 215-223): takes the
forwarder shutdown sender if present, then `child.kill()`. -/
def teKill (te : TaskExecutorM) : TaskExecutorM × Except String Unit × List TEAction :=
  match te.child with
  | some c =>
      let acts := if te.shutdownSenderPresent
        then [TEAction.sentForwarderStop, TEAction.killedChild]
        else [TEAction.killedChild]
      ({ te with shutdownSenderPresent := false }, c.killRes, acts)
  | none => (te, .ok (), [])

/-- `TaskExecutor::signal` (task_executor.rs lines 225-239): runs only when
both the child and the shutdown sender are present (the sender is taken);
if `child.send_signal` fails it falls back to `self.kill()` (whose result
becomes the method's result), then fires the forwarder stop. -/
def teSignal (te : TaskExecutorM) : TaskExecutorM × Except String Unit × List TEAction :=
  match te.child with
  | some c =>
      if te.shutdownSenderPresent then
        let te1 := { te with shutdownSenderPresent := false }
        match (sendSignalUnix c.idNow c.osKillRet).1 with
        | .error _ =>
            let (te2, kr, ka) := teKill te1
            (te2, kr, [TEAction.signalAttempted] ++ ka ++ [TEAction.sentForwarderStop])
        | .ok _ =>
            (te1, .ok (), [TEAction.signalAttempted, TEAction.sentForwarderStop])
      else (te, .ok (), [])
  | none => (te, .ok (), [])

/-- `Executable::signal_or_wait` (task_executor.rs lines 76-94), the
escalation used during shutdown: poll; if still `Executing`, signal (falling
back to `kill` when `signal` itself returns an error), then block on `wait`
for the terminal status; if already terminal, return that status. -/
def teSignalOrWait (te : TaskExecutorM) :
    Except String TaskStatus × TaskExecutorM × List TEAction :=
  match teTryWait te with
  | .ok status =>
      match status with
      | .executing _ _ =>
          let (te1, sigRes, acts1) := teSignal te
          match sigRes with
          | .error _ =>
              let (te2, kr, acts2) := teKill te1
              match kr with
              | .error ke => (.error ke, te2, acts1 ++ acts2)
              | .ok _ =>
                  let (wres, acts3) := teWait te2
                  (wres, te2, acts1 ++ acts2 ++ acts3)
          | .ok _ =>
              let (wres, acts3) := teWait te1
              (wres, te1, acts1 ++ acts3)
      | _ => (.ok status, te, [])
  | .error e => (.error e, te, [])

/-- Rust `char::is_whitespace` restricted to the characters the commands in
question contain (Lean's `Char.isWhitespace`: space, tab, CR, LF). -/
def isWs (c : Char) : Bool := c.isWhitespace

/-- Worker for `str::split_whitespace`: splits a character list at whitespace
runs, producing the non-empty words in order (`acc` holds the current word
reversed). -/
def splitWsAux : List Char → List Char → List (List Char)
  | [], acc => if acc.isEmpty then [] else [acc.reverse]
  | c :: cs, acc =>
      if isWs c then
        if acc.isEmpty then splitWsAux cs []
        else acc.reverse :: splitWsAux cs []
      else splitWsAux cs (c :: acc)

/-- `raw_command.split_whitespace().collect::<Vec<_>>()` as used by
`TaskExecutor::new` (task_executor.rs line 108) and `ConsoleState::spawn`
(console.rs line 53). -/
def splitWhitespace (s : String) : List (List Char) :=
  splitWsAux s.data []

/-- The program/argument split of `TaskExecutor::new`
(task_executor.rs lines 107-114): `args.remove(0)` panics on an empty vector
(modelled as `none`); otherwise the head becomes the program and the tail the
argument vector. -/
def taskExecutorNew (raw : String) : Option (List Char × List (List Char)) :=
  match splitWhitespace raw with
  | [] => none
  | p :: args => some (p, args)

/-- The identical program/argument split of `ConsoleState::spawn`
(console.rs lines 53-54). -/
def consoleStateSpawnSplit (raw : String) : Option (List Char × List (List Char)) :=
  match splitWhitespace raw with
  | [] => none
  | p :: args => some (p, args)

/-- `impl Display for TaskStatus` (task_executor.rs lines 31-58); an absent
pid prints as `0` (`pid.unwrap_or(0)`). -/
def formatTaskStatus : TaskStatus → String
  | .ready c => "Ready: " ++ c
  | .executing c p => "Executing: " ++ c ++ " (PID: " ++ toString (p.getD 0) ++ ")"
  | .killed c p => "Killed: " ++ c ++ " (PID: " ++ toString (p.getD 0) ++ ")"
  | .exited c p st =>
      "Exited: " ++ c ++ " (PID: " ++ toString (p.getD 0) ++ ") with status: " ++ st.display

/-- `impl Display for ParallelyResult` (parallely.rs lines 27-31). -/
def formatParallelyResult (r : ParallelyResult) : String :=
  "[" ++ r.command ++ "]: " ++ r.exitStatus.display

/-- Modelled from the spec: the `App::run` that main.rs calls (returning a
value whose `tasks_status` holds one `Result<TaskStatus>` per task) is not
under src/ — the spec says the program "reports every child's final status".
This models only main.rs's print loop (main.rs lines 48-53): each `Ok` status
prints one line to stdout via `Display for TaskStatus`, each `Err` prints its
text to stderr.  Returns (stdout lines, stderr lines). -/
def mainPrintLoop (tasksStatus : List (Except String TaskStatus)) :
    List String × List String :=
  tasksStatus.foldl
    (fun (acc : List String × List String) r =>
      match r with
      | .ok st => (acc.1 ++ [formatTaskStatus st], acc.2)
      | .error e => (acc.1, acc.2 ++ [e]))
    ([], [])

theorem splitWsAux_ne_nil :
    ∀ (cs : List Char) (acc : List Char), acc ≠ [] → splitWsAux cs acc ≠ [] := by
  intro cs
  induction cs with
  | nil =>
      intro acc hacc
      simp [splitWsAux, List.isEmpty_eq_true, hacc]
  | cons c cs ih =>
      intro acc hacc
      by_cases hw : isWs c = true
      · simp [splitWsAux, hw, List.isEmpty_eq_true, hacc]
      · simpa [splitWsAux, hw] using ih (c :: acc) (by simp)

theorem splitWsAux_nil_iff :
    ∀ cs : List Char, (splitWsAux cs [] = [] ↔ cs.all isWs = true) := by
  intro cs
  induction cs with
  | nil => simp [splitWsAux]
  | cons c cs ih =>
      by_cases hw : isWs c = true
      · simpa [splitWsAux, hw] using ih
      · simp [splitWsAux, hw, splitWsAux_ne_nil cs [c] (by simp)]

theorem mainPrintLoop_foldl (ts : List (Except String TaskStatus)) :
    ∀ acc : List String × List String,
      (ts.foldl
        (fun (acc : List String × List String) r =>
          match r with
          | .ok st => (acc.1 ++ [formatTaskStatus st], acc.2)
          | .error e => (acc.1, acc.2 ++ [e]))
        acc).1
      = acc.1 ++ ts.filterMap (fun r =>
          match r with
          | .ok st => some (formatTaskStatus st)
          | .error _ => none) := by
  induction ts with
  | nil => intro acc; simp
  | cons r ts ih =>
      intro acc
      cases r with
      | ok st => simp [ih]
      | error e => simp [ih]

/-- Claim C1 (code bug).  The spec and the flag's own doc comment
("Exit on all sub-processes complete.", parallely.rs lines 12-14) say the loop
exits on task completion when `exit_on_complete` is set and keeps running when
it is not.  The source (app.rs lines 68-73) tests `!self.exit_on_complete`,
inverting the flag: evaluated at the completion occurrence, the configured
state keeps looping while the unconfigured state exits with the captured
results. -/
theorem c1_exit_on_complete_inverted :
    appStep ⟨true, [], []⟩ (.tasksEnd [.ok ⟨"echo hi", ⟨"exit status: 0"⟩⟩])
      = .continueLoop ⟨true, [], []⟩ ∧
    appStep ⟨false, [], []⟩ (.tasksEnd [.ok ⟨"echo hi", ⟨"exit status: 0"⟩⟩])
      = .exitLoop (.ok (.endRun [.ok ⟨"echo hi", ⟨"exit status: 0"⟩⟩])) :=
  ⟨rfl, rfl⟩

/-- Claim C3 (code bug).  The unix `send_signal` matches the *return value* of
`libc::kill` (which POSIX defines as `0` on success and `-1` on every failure)
against the errno constants `EPERM = 1` and `ESRCH = 3`.  A failing dispatch
returns `-1`, which matches neither constant, so the function answers `Ok(())`
for both an `EPERM` and an `ESRCH` failure — `NoPermission`/`NoWait` are never
produced for a present nonzero pid, contradicting the claim (captured by
`specSendSignalPosix`). -/
theorem c3_send_signal_ignores_errno :
    (sendSignalUnix (some 42) (posixKillRet .eperm)).1 = .ok () ∧
    specSendSignalPosix (some 42) .eperm = .error .noPermission ∧
    (sendSignalUnix (some 42) (posixKillRet .esrch)).1 = .ok () ∧
    specSendSignalPosix (some 42) .esrch = .error .noWait ∧
    (sendSignalUnix (some 42) (posixKillRet .success)).1 = .ok () :=
  ⟨rfl, rfl, rfl, rfl, rfl⟩

/-- Claim C5: when the consumer end of the message bus is dropped (the channel
is closed), every producer-side convenience operation — `send_shutdown`,
`send_event_chunk`, `need_update`, `send_error` — ends in a process-fatal
panic rather than silently dropping the message; in particular a `Shutdown`
message is never silently lost. -/
theorem c5_bus_failure_panics (b : BusState) (r : ShutdownReason) (e : String)
    (events : List ParallelyEvent) (h : b.closed = true) :
    (sendShutdownB b r).2 = .panicked ∧
    (sendErrorB b e).2 = .panicked ∧
    (sendEventChunkB b events).2 = .panicked ∧
    (needUpdateB b).2 = .panicked := by
  refine ⟨?_, ?_, ?_, ?_⟩ <;>
    simp [sendShutdownB, sendErrorB, sendEventChunkB, needUpdateB, busSend, h]

/-- Witness for claim C5 at a concrete closed bus. -/
theorem c5_bus_failure_panics_witness :
    (sendShutdownB ⟨true, []⟩ .quit).2 = .panicked ∧
    (sendErrorB ⟨true, []⟩ "boom").2 = .panicked ∧
    (sendEventChunkB ⟨true, []⟩ []).2 = .panicked ∧
    (needUpdateB ⟨true, []⟩).2 = .panicked :=
  c5_bus_failure_panics ⟨true, []⟩ .quit "boom" [] rfl

/-- Claim C6: for an absent or zero pid, `send_signal` returns
`Err(InvalidPid)` and performs no OS-level dispatch (second component
`false`), on both the unix and the windows implementation, whatever the OS
oracle and requested signal. -/
theorem c6_invalid_pid_no_dispatch :
    ∀ (osKillRet : Int) (sig : ChildSignal) (os : WinOracle),
      sendSignalUnix none osKillRet = (.error .invalidPid, false) ∧
      sendSignalUnix (some 0) osKillRet = (.error .invalidPid, false) ∧
      sendSignalWin none sig os = (.error .invalidPid, false) ∧
      sendSignalWin (some 0) sig os = (.error .invalidPid, false) := by
  intro osKillRet sig os
  exact ⟨rfl, rfl, rfl, rfl⟩

/-- Counterexample to claim C2 as stated.  An `Executing` executor whose
interrupt delivery fails (the child handle reports no id, so `send_signal`
returns `Err(InvalidPid)`) goes through the `kill()` fallback — the action
trace shows the kill — yet the terminal status `signal_or_wait` returns is
`Exited` (built by `TaskExecutor::wait` from the exit status of the killed
process), not `Killed`: the `Killed` variant is never constructed. -/
theorem c2_counterexample :
    (teSignalOrWait ⟨"sleep 5",
        some ⟨none, 0, .ok none, .ok ⟨"signal: 9 (SIGKILL)"⟩, .ok ()⟩,
        some 42, true⟩).1
      = .ok (.exited "sleep 5" (some 42) ⟨"signal: 9 (SIGKILL)"⟩) ∧
    (teSignalOrWait ⟨"sleep 5",
        some ⟨none, 0, .ok none, .ok ⟨"signal: 9 (SIGKILL)"⟩, .ok ()⟩,
        some 42, true⟩).1
      ≠ .ok (.killed "sleep 5" (some 42)) ∧
    (teSignalOrWait ⟨"sleep 5",
        some ⟨none, 0, .ok none, .ok ⟨"signal: 9 (SIGKILL)"⟩, .ok ()⟩,
        some 42, true⟩).2.2
      = [.signalAttempted, .killedChild, .sentForwarderStop, .waitedChild] := by
  refine ⟨rfl, by decide, rfl⟩

/-- Claim C2 (amended): for every `Executing` executor whose interrupt-signal
delivery fails during shutdown escalation, the `kill()` fallback is invoked
(the child does not hang), and the terminal `TaskStatus` the escalation
returns is `Exited` carrying the exit status `wait()` observes — not
`Killed`, a variant the source never produces. -/
theorem c2_escalation_fallback (raw : String) (pid : Option Nat) (c : ChildM)
    (st : ExitStatusM) (err : KillError)
    (htry : c.tryWaitRes = .ok none)
    (hsig : (sendSignalUnix c.idNow c.osKillRet).1 = .error err)
    (hkill : c.killRes = .ok ())
    (hwait : c.waitRes = .ok st) :
    (teSignalOrWait ⟨raw, some c, pid, true⟩).1 = .ok (.exited raw pid st) ∧
    (teSignalOrWait ⟨raw, some c, pid, true⟩).2.2.contains .killedChild = true := by
  constructor <;>
    simp [teSignalOrWait, teTryWait, teSignal, teKill, teWait, htry, hsig, hkill, hwait,
      Except.map]

/-- Witness for claim C2's amended theorem at a concrete executor (the child
id reads back as `0`, so delivery fails with `InvalidPid`). -/
theorem c2_escalation_fallback_witness :
    (teSignalOrWait ⟨"yes", some ⟨some 0, 0, .ok none, .ok ⟨"signal: 9"⟩, .ok ()⟩,
        some 7, true⟩).1 = .ok (.exited "yes" (some 7) ⟨"signal: 9"⟩) ∧
    (teSignalOrWait ⟨"yes", some ⟨some 0, 0, .ok none, .ok ⟨"signal: 9"⟩, .ok ()⟩,
        some 7, true⟩).2.2.contains .killedChild = true :=
  c2_escalation_fallback "yes" (some 7) ⟨some 0, 0, .ok none, .ok ⟨"signal: 9"⟩, .ok ()⟩
    ⟨"signal: 9"⟩ .invalidPid rfl rfl rfl rfl

/-- Counterexample to claim C4 as stated.  The source's first match arm is
`(KeyCode::Char('q'), _)`: it fires for `q` with ANY modifier set, not only
for `q` alone.  Control-`q` is one of the chords the claim says publishes
nothing, yet `handle_event` publishes `Shutdown(Quit)` for it (and stops
propagation). -/
theorem c4_counterexample :
    (handleEventSH (ParallelyEvent.new (.key ⟨.char 'q', controlMods, .press⟩))).1
      = [.quit] ∧
    (handleEventSH (ParallelyEvent.new (.key ⟨.char 'q', controlMods, .press⟩))).1
      ≠ ([] : List ShutdownReason) := by
  refine ⟨rfl, by decide⟩

/-- Claim C4 (amended): the keyboard trigger fires only on key-press events
and maps: `q` with ANY modifier state to user-requested-quit (`Quit`),
control-`c` (modifiers exactly CONTROL) to user-requested-interrupt
(`CtrlC`), control-backslash (modifiers exactly CONTROL) to the quit-signal
equivalent (`Sigquit`); every other chord, every non-press key event and
every non-key event publishes nothing and leaves the event untouched; each
recognized trigger marks the event non-propagating. -/
theorem c4_key_trigger_mapping :
    (∀ mods : KeyModifiers,
      handleEventSH (.new (.key ⟨.char 'q', mods, .press⟩))
        = ([.quit], ⟨.key ⟨.char 'q', mods, .press⟩, false⟩)) ∧
    handleEventSH (.new (.key ⟨.char 'c', controlMods, .press⟩))
      = ([.ctrlC], ⟨.key ⟨.char 'c', controlMods, .press⟩, false⟩) ∧
    handleEventSH (.new (.key ⟨.char '\\', controlMods, .press⟩))
      = ([.sigquit], ⟨.key ⟨.char '\\', controlMods, .press⟩, false⟩) ∧
    (∀ k : KeyEvent, k.code ≠ .char 'q' →
      ¬(k.code = .char 'c' ∧ k.modifiers = controlMods) →
      ¬(k.code = .char '\\' ∧ k.modifiers = controlMods) →
      handleEventSH (.new (.key k)) = ([], .new (.key k))) ∧
    (∀ k : KeyEvent, k.kind ≠ .press →
      handleEventSH (.new (.key k)) = ([], .new (.key k))) ∧
    (∀ e : Event, (∀ k : KeyEvent, e ≠ .key k) →
      handleEventSH (.new e) = ([], .new e)) := by
  refine ⟨?_, ?_, ?_, ?_, ?_, ?_⟩
  · intro mods
    simp [handleEventSH, ParallelyEvent.new, ParallelyEvent.stopPropagation]
  · simp [handleEventSH, ParallelyEvent.new, ParallelyEvent.stopPropagation]
  · simp [handleEventSH, ParallelyEvent.new, ParallelyEvent.stopPropagation]
  · intro k h1 h2 h3
    obtain ⟨code, mods, kind⟩ := k
    cases kind with
    | press =>
        simp only [ParallelyEvent.new, handleEventSH]
        rw [if_neg (by simpa using h1), if_neg (by simpa using h2),
          if_neg (by simpa using h3)]
    | repeatKey => rfl
    | release => rfl
  · intro k hk
    obtain ⟨code, mods, kind⟩ := k
    cases kind with
    | press => exact absurd rfl hk
    | repeatKey => rfl
    | release => rfl
  · intro e he
    cases e with
    | key k => exact absurd rfl (he k)
    | mouse m => rfl
    | resize w h => rfl
    | focusGained => rfl
    | focusLost => rfl
    | paste s => rfl

/-- Witness for claim C4's amended theorem: an unrecognized chord (`x` alone,
pressed) publishes nothing and propagates. -/
theorem c4_key_trigger_mapping_witness :
    handleEventSH (.new (.key ⟨.char 'x', noMods, .press⟩))
      = ([], .new (.key ⟨.char 'x', noMods, .press⟩)) :=
  c4_key_trigger_mapping.2.2.2.1 ⟨.char 'x', noMods, .press⟩
    (by decide) (by decide) (by decide)

/-- Counterexample to claim C7 as stated.  Mouse scroll dispatch broadcasts a
copy of the event to every pane and no pane ever marks it non-propagating
(`ConsoleState::handle_mouse_event` has no propagation flag at all): with two
panes whose viewport rects both contain the coordinates, BOTH panes step
their scroll offset, whereas under the claim the first (consuming) pane would
have stopped the event and left the second pane's offset at `0`. -/
theorem c7_counterexample :
    (renderPass (dispatchMouse [⟨0, none⟩, ⟨0, none⟩] ⟨.scrollDown, 5, 5⟩)
        [(⟨0, 0, 10, 10⟩, 5), (⟨0, 0, 10, 10⟩, 5)]).map (fun s => s.scroll)
      = [1, 1] ∧
    (renderPass (dispatchMouse [⟨0, none⟩, ⟨0, none⟩] ⟨.scrollDown, 5, 5⟩)
        [(⟨0, 0, 10, 10⟩, 5), (⟨0, 0, 10, 10⟩, 5)]).map (fun s => s.scroll)
      ≠ [1, 0] := by
  refine ⟨by decide, by decide⟩

/-- Claim C7 (amended): a mouse scroll event is broadcast to every pane (each
stores its own copy; there is no non-propagation marking in the mouse path);
at the next render pass each pane whose viewport rect contains the event's
coordinates steps its scroll offset by one (down saturating at `0` going up,
clamped to the pane's scroll maximum), and each pane whose rect does not
contain the coordinates keeps its offset (subject to the same clamp). -/
theorem c7_scroll_dispatch (states : List ConsoleStateM) (ev : MouseEvent)
    (v : Nat) (rect : Rect) (m : Nat)
    (hkind : ev.kind = .scrollUp ∨ ev.kind = .scrollDown) :
    dispatchMouse states ev = states.map (fun s => setMouseEvent s (some ev)) ∧
    (rect.containsPos ev.column ev.row = true →
      (renderScrollUpdate ⟨v, some ev⟩ rect m).scroll
        = min (match ev.kind with
            | .scrollUp => v - 1
            | .scrollDown => v + 1
            | .otherMouse _ => v) m) ∧
    (rect.containsPos ev.column ev.row = false →
      (renderScrollUpdate ⟨v, some ev⟩ rect m).scroll = min v m) := by
  refine ⟨?_, ?_, ?_⟩
  · rcases hkind with h | h <;> simp [dispatchMouse, h]
  · intro hc
    simp only [renderScrollUpdate, handleMouseEvent, hc, if_true]
    cases ev.kind <;> rfl
  · intro hc
    simp [renderScrollUpdate, handleMouseEvent, hc]

/-- Witness for claim C7's amended theorem at a concrete pane and event. -/
theorem c7_scroll_dispatch_witness :
    dispatchMouse [⟨2, none⟩] ⟨.scrollDown, 4, 4⟩
      = [⟨2, some ⟨.scrollDown, 4, 4⟩⟩] ∧
    (renderScrollUpdate ⟨2, some ⟨.scrollDown, 4, 4⟩⟩ ⟨0, 0, 10, 10⟩ 9).scroll = 3 := by
  have h := c7_scroll_dispatch [⟨2, none⟩] ⟨.scrollDown, 4, 4⟩ 2 ⟨0, 0, 10, 10⟩ 9
    (Or.inr rfl)
  exact ⟨by simpa [setMouseEvent] using h.1, by simpa using h.2.1 (by decide)⟩

/-- Claim C8: each completed task's status renders as
`<status-kind>: <command> (PID: <pid>)` with ` with status: <exit-status>`
appended for `Exited`, and the exit print loop emits exactly one such stdout
line per `Ok` task status, in order (errors go to stderr instead). -/
theorem c8_exit_line_format :
    (∀ (c : String) (p : Nat),
      formatTaskStatus (.killed c (some p))
        = "Killed: " ++ c ++ " (PID: " ++ toString p ++ ")") ∧
    (∀ (c : String) (p : Nat) (st : ExitStatusM),
      formatTaskStatus (.exited c (some p) st)
        = "Exited: " ++ c ++ " (PID: " ++ toString p ++ ") with status: " ++ st.display) ∧
    (∀ ts : List (Except String TaskStatus),
      (mainPrintLoop ts).1
        = ts.filterMap (fun r =>
            match r with
            | .ok st => some (formatTaskStatus st)
            | .error _ => none)) := by
  refine ⟨fun c p => rfl, fun c p st => rfl, fun ts => ?_⟩
  simpa using mainPrintLoop_foldl ts ([], [])

/-- Claim C9: a command string whose whitespace split yields no token makes
both `TaskExecutor::new` and `ConsoleState::spawn` panic at `args.remove(0)`
(modelled as `none`), and this happens exactly for strings with no
non-whitespace character; with at least one token, construction succeeds with
the first token as the program and the remaining tokens as the arguments, and
the two construction sites perform the identical split. -/
theorem c9_command_split (raw : String) :
    (taskExecutorNew raw = none ↔ raw.data.all isWs = true) ∧
    consoleStateSpawnSplit raw = taskExecutorNew raw ∧
    (∀ (p : List Char) (args : List (List Char)),
      splitWhitespace raw = p :: args → taskExecutorNew raw = some (p, args)) := by
  refine ⟨?_, rfl, ?_⟩
  · rw [show (raw.data.all isWs = true) ↔ (splitWsAux raw.data [] = []) from
      (splitWsAux_nil_iff raw.data).symm]
    unfold taskExecutorNew splitWhitespace
    cases h : splitWsAux raw.data [] with
    | nil => simp
    | cons p args => simp
  · intro p args h
    unfold taskExecutorNew
    rw [h]

/-- Witness for claim C9 at a concrete two-token command. -/
theorem c9_command_split_witness :
    taskExecutorNew "echo hi" = some (['e', 'c', 'h', 'o'], [['h', 'i']]) :=
  (c9_command_split "echo hi").2.2 ['e', 'c', 'h', 'o'] [['h', 'i']] (by decide)

/-- Claim C10: a `ParallelyEvent`'s propagation flag is `true` at
construction, `stop_propagation` (the API's only mutator) sets it to `false`,
and over any sequence of handler operations the flag never returns to `true`:
once `propagate()` is `false` it stays `false` for the rest of the dispatch
pass. -/
theorem c10_propagate_monotone (e : Event) (pe : ParallelyEvent)
    (ops : List EventOp) (h : pe.propagate = false) :
    (ParallelyEvent.new e).propagate = true ∧
    pe.stopPropagation.propagate = false ∧
    (applyOps pe ops).propagate = false := by
  refine ⟨rfl, rfl, ?_⟩
  induction ops generalizing pe with
  | nil => exact h
  | cons op ops ih =>
      cases op
      exact ih pe.stopPropagation rfl

/-- Witness for claim C10 at a concrete stopped event and handler sequence. -/
theorem c10_propagate_monotone_witness :
    (ParallelyEvent.new .focusGained).propagate = true ∧
    (ParallelyEvent.stopPropagation ⟨.focusGained, false⟩).propagate = false ∧
    (applyOps ⟨.focusGained, false⟩ [.stopProp]).propagate = false :=
  c10_propagate_monotone .focusGained ⟨.focusGained, false⟩ [.stopProp] rfl

end Parallely
